import Mathlib

/-!
Shallow embedding of the AdventureEngine client core (src/App.tsx,
src/unnamed/part_000 = types.ts, src/unnamed/part_001 = geminiService.ts).

Remote-service results (narrative generation, image generation, hotspot
detection) are supplied as oracle values; JavaScript truthiness on
nullable strings is modelled explicitly, since the source relies on it
(`!image`, `image || ""`, `visualResult.image || newImage`,
`currentSceneId || "unknown"`, `inventory_add &&`).
-/

namespace AdventureEngine

/-- JS truthiness of a `string | null | undefined` value:
null/undefined and the empty string are falsy. -/
def jsTruthyStr : Option String → Bool
  | none => false
  | some s => !(s == "")

/-- JS `a || b` on nullable strings: returns `b` verbatim when `a` is falsy. -/
def jsOrOpt (a b : Option String) : Option String :=
  if jsTruthyStr a then a else b

/-- JS `a || d` where `d` is a plain string default. -/
def jsOrD (a : Option String) (d : String) : String :=
  if jsTruthyStr a then a.getD "" else d

-- ---- Data model (types.ts) ----

structure Hotspot where
  name : String
  box : List Int
deriving Repr, DecidableEq

structure SceneData where
  id : String
  visualDescription : String
  imageUrl : String
  hotspots : List Hotspot
  interactables : List String
deriving Repr, DecidableEq

inductive LogType where
  | narrator
  | command
  | error
deriving Repr, DecidableEq

structure LogEntry where
  type : LogType
  text : String
deriving Repr, DecidableEq

/-- Model of `Record<string, SceneData>`: association list with JS object-key
semantics (assignment to an existing key replaces in place, a new key is
appended at the end). -/
abbrev Cache := List (String × SceneData)

def cacheGet (c : Cache) (k : String) : Option SceneData :=
  (List.find? (fun p => p.1 == k) c).map (fun p => p.2)

def cacheSet (c : Cache) (k : String) (v : SceneData) : Cache :=
  if List.any c (fun p => p.1 == k) then
    List.map (fun p => if p.1 == k then (k, v) else p) c
  else
    c ++ [(k, v)]

structure GameState where
  isPlaying : Bool
  currentSceneId : Option String
  inventory : List String
  history : List LogEntry
  imageUrl : Option String
  hotspots : List Hotspot
  isLoading : Bool
  loadingMessage : String
  gameOver : Bool
  theme : String
  sceneCache : Cache
deriving Repr, DecidableEq

structure AdventureResponse where
  narrative : String
  scene_id : String
  visual_description : String
  trigger_visual_update : Bool
  interactables : List String
  inventory_add : Option String := none
  inventory_remove : Option String := none
  is_game_over : Option Bool := none
deriving Repr, DecidableEq

-- ---- geminiService.ts ----

/-- Model of `processGameAction`: the remote call's outcome is the oracle `outcome`
(`none` = the call threw, returned no text, or the text failed to parse;
`some r` = the parsed response).  On failure the catch block returns the
hard-coded fallback, whose `scene_id` is `currentSceneId || "unknown"`. -/
def processGameAction (outcome : Option AdventureResponse)
    (currentSceneId : Option String) : AdventureResponse :=
  match outcome with
  | some r => r
  | none =>
    { narrative := "I didn't quite get that."
      scene_id := jsOrD currentSceneId "unknown"
      visual_description := "No change."
      trigger_visual_update := false
      interactables := [] }

/-- Model of `generateAdventureStart`: on failure the catch block returns the
hard-coded fallback (note `trigger_visual_update := true` there). -/
def generateAdventureStart (outcome : Option AdventureResponse) : AdventureResponse :=
  match outcome with
  | some r => r
  | none =>
    { narrative := "The system is rebooting..."
      scene_id := "error_room"
      visual_description := "Static screen"
      trigger_visual_update := true
      interactables := [] }

-- Raw JSON values, for the hotspot-detection response before filtering.

inductive JVal where
  | jnull
  | jsUndefined
  | jbool (b : Bool)
  | jnum (n : Int)
  | jstr (s : String)
  | jarr (xs : List JVal)
  | jobj (fields : List (String × JVal))

/-- JS truthiness of an arbitrary JSON value. -/
def jsTruthy : JVal → Bool
  | .jnull => false
  | .jsUndefined => false
  | .jbool b => b
  | .jnum n => !(n == 0)
  | .jstr s => !(s == "")
  | .jarr _ => true
  | .jobj _ => true

/-- Property access `v.k`; missing fields and non-objects give undefined. -/
def getField : JVal → String → JVal
  | .jobj fs, k =>
    match List.find? (fun p => p.1 == k) fs with
    | some p => p.2
    | none => .jsUndefined
  | _, _ => .jsUndefined

/-- The filter predicate of `detectSceneHotspots`:
`h && h.name && Array.isArray(h.box) && h.box.length === 4`. -/
def keepRawHotspot (h : JVal) : Bool :=
  jsTruthy h && jsTruthy (getField h "name") &&
    (match getField h "box" with
     | .jarr xs => xs.length == 4
     | _ => false)

/-- Model of `detectSceneHotspots` response handling: empty item list short-circuits
to `[]`; `raw = none` covers a thrown call, absent text, or unparseable
JSON (all reach `return []` via the guard or the catch).  When
`result.hotspots` is not an array, either `|| []` (falsy) or the thrown
`.filter` TypeError (truthy non-array, swallowed by the catch) yields `[]`. -/
def detectSceneHotspots (items : List String) (raw : Option JVal) : List JVal :=
  if items.length = 0 then []
  else
    match raw with
    | none => []
    | some result =>
      match getField result "hotspots" with
      | .jarr xs => List.filter keepRawHotspot xs
      | _ => []

-- ---- App.tsx: audio decoding ----

/-- Reassemble a little-endian 16-bit sample from two bytes, as an
`Int16Array` view does. -/
def toInt16 (lo hi : Nat) : Int :=
  if lo + 256 * hi < 32768 then ((lo + 256 * hi : Nat) : Int)
  else ((lo + 256 * hi : Nat) : Int) - 65536

/-- The odd-length padding step of `decodeAudioData`. -/
def padEven (data : List Nat) : List Nat :=
  if data.length % 2 = 1 then data ++ [0] else data

/-- Consecutive byte pairs as signed 16-bit samples. -/
def pairSamples : List Nat → List Int
  | lo :: hi :: rest => toInt16 lo hi :: pairSamples rest
  | _ => []

/-- Model of `decodeAudioData`: pad to even length, view as Int16, divide each
sample by 32768.  Sample values are modelled as exact rationals (every
`k / 32768` with `|k| ≤ 32768` is exactly representable in Float32, so
the idealization is faithful). -/
def decodeAudioData (data : List Nat) : List ℚ :=
  List.map (fun n : Int => (n : ℚ) / 32768) (pairSamples (padEven data))

-- ---- App.tsx: visual resolution policy ----

/-- Oracle for the Media Service calls one visual resolution may make:
the value `generateSceneImage(visualDesc)` would resolve to, and the
value `detectSceneHotspots(image, interactables)` would resolve to. -/
structure VisualOracle where
  genImage : Option String
  detect : List Hotspot
deriving Repr, DecidableEq

/-- Result of `handleVisualUpdate`, with flags recording which Media
Service calls were actually made. -/
structure VisualResult where
  image : Option String
  hotspots : List Hotspot
  calledGenImage : Bool
  calledDetect : Bool
  loadingMessage : Option String
deriving Repr, DecidableEq

/-- The generation arm of `handleVisualUpdate`: request a fresh image
(`!image` failure gives `(null, [])`), then detect hotspots only when
`interactables` is non-empty. -/
def generateVisuals (interactables : List String) (o : VisualOracle) : VisualResult :=
  if jsTruthyStr o.genImage then
    if interactables.length > 0 then
      { image := o.genImage, hotspots := o.detect
        calledGenImage := true, calledDetect := true
        loadingMessage := some "Analyzing Objects..." }
    else
      { image := o.genImage, hotspots := []
        calledGenImage := true, calledDetect := false
        loadingMessage := some "Rendering Scene..." }
  else
    { image := none, hotspots := []
      calledGenImage := true, calledDetect := false
      loadingMessage := some "Rendering Scene..." }

/-- Model of `handleVisualUpdate` (App.tsx): return the cached artifact when no
update is forced and the scene is cached (`!triggerUpdate &&
gameState.sceneCache[sceneId]`, a cached object being always truthy);
otherwise run the generation arm. -/
def handleVisualUpdate (cache : Cache) (sceneId : String)
    (triggerUpdate : Bool) (interactables : List String)
    (o : VisualOracle) : VisualResult :=
  if triggerUpdate then generateVisuals interactables o
  else
    match cacheGet cache sceneId with
    | some cached =>
      { image := some cached.imageUrl, hotspots := cached.hotspots
        calledGenImage := false, calledDetect := false, loadingMessage := none }
    | none => generateVisuals interactables o

-- ---- App.tsx: turn orchestrator ----

/-- The add half of the inventory step:
`if (response.inventory_add && !newInventory.includes(...)) push`. -/
def addInventory (inv : List String) (add : Option String) : List String :=
  if jsTruthyStr add && !(List.contains inv (add.getD "")) then
    inv ++ [add.getD ""]
  else inv

/-- The inventory step of `executeCommand`: guarded push then filter. -/
def updateInventory (inv : List String) (add remove : Option String) : List String :=
  if jsTruthyStr remove then
    List.filter (fun i => !(i == remove.getD "")) (addInventory inv add)
  else addInventory inv add

structure TurnOracle where
  narrativeOutcome : Option AdventureResponse
  visual : VisualOracle
deriving Repr, DecidableEq

structure ExecResult where
  state : GameState
  narrativeCalled : Bool
  policyInvoked : Bool
  calledGenImage : Bool
  calledDetect : Bool
deriving Repr, DecidableEq

/-- Model of `executeCommand` (App.tsx) as one pure transition.  The early guard
is exactly `isLoading || gameOver`.  `needsUpdate` compares the response
scene id against `currentSceneId` and disjoins the trigger flag; the
commit writes the scene cache only under `if (newImage)`. -/
def executeCommand (g : GameState) (fullCommand : String)
    (o : TurnOracle) : ExecResult :=
  if g.isLoading || g.gameOver then
    { state := g, narrativeCalled := false, policyInvoked := false
      calledGenImage := false, calledDetect := false }
  else
    let newHistory := g.history ++ [⟨LogType.command, "> " ++ fullCommand⟩]
    let response := processGameAction o.narrativeOutcome g.currentSceneId
    let newInventory :=
      updateInventory g.inventory response.inventory_add response.inventory_remove
    let needsUpdate :=
      !(some response.scene_id == g.currentSceneId) || response.trigger_visual_update
    let vr :=
      if needsUpdate then
        handleVisualUpdate g.sceneCache response.scene_id
          response.trigger_visual_update response.interactables o.visual
      else
        { image := none, hotspots := [], calledGenImage := false
          calledDetect := false, loadingMessage := none }
    let newImage :=
      if needsUpdate then jsOrOpt vr.image g.imageUrl else g.imageUrl
    let newHotspots :=
      if needsUpdate then (if vr.hotspots.length > 0 then vr.hotspots else [])
      else g.hotspots
    let nextCache :=
      if jsTruthyStr newImage then
        cacheSet g.sceneCache response.scene_id
          { id := response.scene_id
            visualDescription := response.visual_description
            imageUrl := newImage.getD ""
            hotspots := newHotspots
            interactables := response.interactables }
      else g.sceneCache
    { state :=
        { g with
          isLoading := false
          loadingMessage := (vr.loadingMessage).getD "Thinking..."
          history := newHistory ++ [⟨LogType.narrator, response.narrative⟩]
          inventory := newInventory
          currentSceneId := some response.scene_id
          imageUrl := newImage
          hotspots := newHotspots
          gameOver := (response.is_game_over).getD false
          sceneCache := nextCache }
      narrativeCalled := true
      policyInvoked := needsUpdate
      calledGenImage := needsUpdate && vr.calledGenImage
      calledDetect := needsUpdate && vr.calledDetect }

/-- Model of `handleStartGame` (App.tsx) as one pure transition: always resolves
visuals with `triggerUpdate = true`, seeds history and inventory, and
replaces the scene cache with a single-entry object literal whose stored
image is `image || ""` while the displayed `imageUrl` is `image` itself. -/
def handleStartGame (g : GameState) (theme : String)
    (o : TurnOracle) : GameState :=
  let response := generateAdventureStart o.narrativeOutcome
  let vr :=
    handleVisualUpdate g.sceneCache response.scene_id true
      response.interactables o.visual
  { g with
    isPlaying := true
    theme := theme
    isLoading := false
    loadingMessage := (vr.loadingMessage).getD "Initializing World..."
    currentSceneId := some response.scene_id
    imageUrl := vr.image
    hotspots := vr.hotspots
    history := [⟨LogType.narrator, response.narrative⟩]
    inventory :=
      if jsTruthyStr response.inventory_add then [response.inventory_add.getD ""] else []
    sceneCache :=
      [(response.scene_id,
        { id := response.scene_id
          visualDescription := response.visual_description
          imageUrl := vr.image.getD ""
          hotspots := vr.hotspots
          interactables := response.interactables })] }

-- ---- Concrete fixtures used by counterexamples and witnesses ----

/-- A game state before `startGame` has run: not playing, idle, not over. -/
def notPlayingState : GameState :=
  { isPlaying := false, currentSceneId := none, inventory := [], history := []
    imageUrl := none, hotspots := [], isLoading := false, loadingMessage := ""
    gameOver := false, theme := "", sceneCache := [] }

/-- An oracle whose narrative call fails and whose image call fails. -/
def stubOracle : TurnOracle :=
  { narrativeOutcome := none, visual := { genImage := none, detect := [] } }

/-- A plain mid-game state in scene "room". -/
def midGameState : GameState :=
  { isPlaying := true, currentSceneId := some "room", inventory := [], history := []
    imageUrl := none, hotspots := [], isLoading := false, loadingMessage := ""
    gameOver := false, theme := "", sceneCache := [] }

/-- The state `midGameState` with a turn in flight. -/
def loadingState : GameState :=
  { isPlaying := true, currentSceneId := some "room", inventory := [], history := []
    imageUrl := none, hotspots := [], isLoading := true, loadingMessage := ""
    gameOver := false, theme := "", sceneCache := [] }

/-- The state `midGameState` moved to scene "a". -/
def sceneAState : GameState :=
  { isPlaying := true, currentSceneId := some "a", inventory := [], history := []
    imageUrl := none, hotspots := [], isLoading := false, loadingMessage := ""
    gameOver := false, theme := "", sceneCache := [] }

-- ---- Helper lemmas ----

theorem pairSamples_bound : ∀ (l : List Nat), (∀ b ∈ l, b < 256) →
    ∀ s ∈ pairSamples l, -32768 ≤ s ∧ s ≤ 32767
  | [], _ => by simp [pairSamples]
  | [x], _ => by simp [pairSamples]
  | lo :: hi :: rest, h => by
    intro s hs
    simp only [pairSamples, List.mem_cons] at hs
    rcases hs with rfl | hs
    · have hlo : lo < 256 := h lo (by simp)
      have hhi : hi < 256 := h hi (by simp)
      unfold toInt16
      split <;> omega
    · exact pairSamples_bound rest (fun b hb => h b (by simp [hb])) s hs

theorem contains_eq_true_iff (l : List String) (a : String) :
    l.contains a = true ↔ a ∈ l := List.elem_iff

theorem addInventory_none (inv : List String) : addInventory inv none = inv := by
  unfold addInventory
  rw [if_neg]
  simp [jsTruthyStr]

theorem addInventory_mem (inv : List String) (a : String) (hmem : a ∈ inv) :
    addInventory inv (some a) = inv := by
  unfold addInventory
  rw [if_neg]
  intro hcond
  rw [Bool.and_eq_true] at hcond
  have h2 := hcond.2
  rw [Bool.not_eq_true'] at h2
  simp only [Option.getD_some] at h2
  exact absurd ((contains_eq_true_iff inv a).mpr hmem) (by rw [h2]; decide)

theorem addInventory_not_mem (inv : List String) (a : String) (ha : a ≠ "")
    (hmem : a ∉ inv) : addInventory inv (some a) = inv ++ [a] := by
  unfold addInventory
  rw [if_pos]
  · simp
  · rw [Bool.and_eq_true]
    refine ⟨by simp [jsTruthyStr, ha], ?_⟩
    rw [Bool.not_eq_true']
    simp only [Option.getD_some]
    cases hc : inv.contains a with
    | false => rfl
    | true => exact absurd ((contains_eq_true_iff inv a).mp hc) hmem

theorem addInventory_nodup (inv : List String) (add : Option String)
    (hnd : inv.Nodup) : (addInventory inv add).Nodup := by
  unfold addInventory
  split
  · rename_i hcond
    rw [Bool.and_eq_true] at hcond
    have h2 := hcond.2
    rw [Bool.not_eq_true'] at h2
    refine List.Nodup.append hnd (List.nodup_singleton _) ?_
    rw [List.disjoint_singleton]
    intro hx
    exact absurd ((contains_eq_true_iff inv _).mpr hx) (by rw [h2]; decide)
  · exact hnd

theorem generateVisuals_calledGenImage (interactables : List String)
    (o : VisualOracle) : (generateVisuals interactables o).calledGenImage = true := by
  unfold generateVisuals
  split
  · split <;> rfl
  · rfl

theorem keepRawHotspot_iff (h : JVal) :
    keepRawHotspot h = true ↔
      jsTruthy h = true ∧ jsTruthy (getField h "name") = true ∧
      ∃ bs, getField h "box" = JVal.jarr bs ∧ bs.length = 4 := by
  unfold keepRawHotspot
  cases hb : getField h "box" <;> simp [hb, and_assoc]

-- ---- Claim theorems ----

/-- C9: `decodeAudioData` pads an odd-length byte stream with one trailing
zero byte before interpreting it as 16-bit PCM samples, and divides each
sample by 32768, so every produced sample value lies in [-1.0, 1.0]. -/
theorem decodeAudioData_pad_and_range (data : List Nat)
    (hbytes : ∀ b ∈ data, b < 256) :
    (data.length % 2 = 1 → decodeAudioData data = decodeAudioData (data ++ [0])) ∧
    (∀ s ∈ decodeAudioData data, -1 ≤ s ∧ s ≤ 1) := by
  constructor
  · intro hodd
    have heven : (data ++ [0]).length % 2 = 0 := by
      simp only [List.length_append, List.length_cons, List.length_nil]
      omega
    unfold decodeAudioData padEven
    rw [if_pos hodd, if_neg (by omega)]
  · intro s hs
    simp only [decodeAudioData, List.mem_map] at hs
    obtain ⟨n, hn, hns⟩ := hs
    have hb : ∀ b ∈ padEven data, b < 256 := by
      intro b hb
      unfold padEven at hb
      split at hb
      · rcases List.mem_append.mp hb with hb | hb
        · exact hbytes b hb
        · simp only [List.mem_singleton] at hb
          omega
      · exact hbytes b hb
    have hrange := pairSamples_bound (padEven data) hb n hn
    have h32 : (0 : ℚ) < 32768 := by norm_num
    subst hns
    constructor
    · rw [le_div_iff₀ h32]
      have : (-32768 : ℚ) ≤ (n : ℚ) := by exact_mod_cast hrange.1
      linarith
    · rw [div_le_iff₀ h32]
      have : (n : ℚ) ≤ 32767 := by exact_mod_cast hrange.2
      linarith

/-- Witness for C9 at the concrete odd-length byte stream
`[0x00, 0x80, 0xff]` (one sample `-32768`, padded sample `255`). -/
theorem decodeAudioData_pad_and_range_witness :
    (∀ b ∈ [0, 128, 255], b < 256) ∧
    (([0, 128, 255] : List Nat).length % 2 = 1 →
      decodeAudioData [0, 128, 255] = decodeAudioData ([0, 128, 255] ++ [0])) ∧
    (∀ s ∈ decodeAudioData [0, 128, 255], -1 ≤ s ∧ s ≤ 1) := by
  refine ⟨by decide, ?_, ?_⟩
  · exact (decodeAudioData_pad_and_range [0, 128, 255] (by decide)).1
  · exact (decodeAudioData_pad_and_range [0, 128, 255] (by decide)).2

/-- C7: inventory update is idempotent — adding a held item or removing an
absent item is a no-op, otherwise the added item is appended at the end and
the removed item is erased — and it preserves duplicate-freedom. -/
theorem updateInventory_idempotent (inv : List String) (a r : String)
    (ha : a ≠ "") (hr : r ≠ "") :
    (a ∈ inv → updateInventory inv (some a) none = inv) ∧
    (a ∉ inv → updateInventory inv (some a) none = inv ++ [a]) ∧
    (r ∉ inv → updateInventory inv none (some r) = inv) ∧
    (inv.Nodup → r ∈ inv → updateInventory inv none (some r) = inv.erase r) ∧
    (∀ add remove : Option String, inv.Nodup →
      (updateInventory inv add remove).Nodup) := by
  refine ⟨?_, ?_, ?_, ?_, ?_⟩
  · intro hmem
    unfold updateInventory
    rw [if_neg (by simp [jsTruthyStr]), addInventory_mem inv a hmem]
  · intro hmem
    unfold updateInventory
    rw [if_neg (by simp [jsTruthyStr]), addInventory_not_mem inv a ha hmem]
  · intro hmem
    unfold updateInventory
    rw [if_pos (by simp [jsTruthyStr, hr]), addInventory_none]
    apply List.filter_eq_self.mpr
    intro x hx
    rw [Bool.not_eq_true', beq_eq_false_iff_ne]
    simp only [Option.getD_some]
    rintro rfl
    exact hmem hx
  · intro hnd hmem
    unfold updateInventory
    rw [if_pos (by simp [jsTruthyStr, hr]), addInventory_none,
      List.Nodup.erase_eq_filter hnd]
    rfl
  · intro add remove hnd
    unfold updateInventory
    split
    · exact List.Nodup.filter _ (addInventory_nodup inv add hnd)
    · exact addInventory_nodup inv add hnd

/-- Witness for C7 at `inv = ["key", "rope"]`, `a = "key"`, `r = "lamp"`. -/
theorem updateInventory_idempotent_witness :
    updateInventory ["key", "rope"] (some "key") none = ["key", "rope"] ∧
    updateInventory ["key", "rope"] none (some "lamp") = ["key", "rope"] := by
  have h := updateInventory_idempotent ["key", "rope"] "key" "lamp"
    (by decide) (by decide)
  exact ⟨h.1 (by decide), h.2.2.1 (by decide)⟩

/-- C5: `handleVisualUpdate` invokes image generation iff the trigger flag
is set or the cache misses; with the trigger clear and a cache hit it
returns exactly the cached image and hotspots with no Media Service call;
with the trigger set it always requests a fresh image. -/
theorem handleVisualUpdate_cache_policy (cache : Cache) (sceneId : String)
    (trigger : Bool) (interactables : List String) (o : VisualOracle) :
    ((handleVisualUpdate cache sceneId trigger interactables o).calledGenImage
       = (trigger || (cacheGet cache sceneId).isNone)) ∧
    (∀ a, trigger = false → cacheGet cache sceneId = some a →
      handleVisualUpdate cache sceneId trigger interactables o =
        { image := some a.imageUrl, hotspots := a.hotspots
          calledGenImage := false, calledDetect := false, loadingMessage := none }) ∧
    (trigger = true →
      (handleVisualUpdate cache sceneId trigger interactables o).calledGenImage = true) := by
  refine ⟨?_, ?_, ?_⟩
  · cases trigger with
    | true =>
      unfold handleVisualUpdate
      rw [if_pos rfl, Bool.true_or, generateVisuals_calledGenImage]
    | false =>
      unfold handleVisualUpdate
      rw [if_neg (by decide), Bool.false_or]
      cases hc : cacheGet cache sceneId with
      | none =>
        show (generateVisuals interactables o).calledGenImage = true
        exact generateVisuals_calledGenImage interactables o
      | some a => rfl
  · intro a htr hc
    subst htr
    unfold handleVisualUpdate
    rw [if_neg (by decide), hc]

  · intro htr
    subst htr
    unfold handleVisualUpdate
    rw [if_pos rfl, generateVisuals_calledGenImage]

/-- Witness for C5 at a one-entry cache hit with the trigger clear. -/
theorem handleVisualUpdate_cache_policy_witness :
    handleVisualUpdate
        [("room", { id := "room", visualDescription := "d", imageUrl := "img"
                    hotspots := [], interactables := [] })]
        "room" false [] { genImage := some "fresh", detect := [] } =
      { image := some "img", hotspots := [], calledGenImage := false
        calledDetect := false, loadingMessage := none } := by
  exact (handleVisualUpdate_cache_policy
      [("room", { id := "room", visualDescription := "d", imageUrl := "img"
                  hotspots := [], interactables := [] })]
      "room" false [] { genImage := some "fresh", detect := [] }).2.1
    { id := "room", visualDescription := "d", imageUrl := "img"
      hotspots := [], interactables := [] } rfl (by decide)

/-- A box is a 4-element array all of whose elements are numbers; the
spec claims the filter demands this of kept entries. -/
def boxIsNumeric4 (h : JVal) : Bool :=
  match getField h "box" with
  | .jarr xs =>
    xs.length == 4 &&
      List.all xs (fun x => match x with | .jnum _ => true | _ => false)
  | _ => false

/-- A detection response holding one well-formed entry and one entry whose
box is a 4-element array of strings rather than numbers. -/
def mixedDetectResponse : JVal :=
  JVal.jobj [("hotspots", JVal.jarr
    [JVal.jobj [("name", JVal.jstr "key"),
                ("box", JVal.jarr [JVal.jnum 10, JVal.jnum 10,
                                   JVal.jnum 20, JVal.jnum 20])],
     JVal.jobj [("name", JVal.jstr "rug"),
                ("box", JVal.jarr [JVal.jstr "a", JVal.jstr "b",
                                   JVal.jstr "c", JVal.jstr "d"])]])]

/-- C4 counterexample: on a response holding a well-formed entry and an
entry whose box is a 4-element array of strings, the filter keeps both —
the entry with the non-numeric box is not discarded, refuting the claim
that exactly the entries with a 4-element numeric box are kept. -/
theorem detectSceneHotspots_keeps_non_numeric_box :
    List.map boxIsNumeric4
        (detectSceneHotspots ["key", "rug"] (some mixedDetectResponse))
      = [true, false] ∧
    (detectSceneHotspots ["key", "rug"] (some mixedDetectResponse)).length = 2 := by
  constructor <;> rfl

/-- C4 (amended): when the item list is non-empty and the response's
`hotspots` field is an array, the filter keeps exactly the entries that
are truthy, have a truthy `name`, and whose `box` is an array of length
exactly 4 — element types of the box are not checked; all other entries
are discarded silently. -/
theorem detectSceneHotspots_filter_characterization
    (items : List String) (result : JVal) (xs : List JVal)
    (hitems : items.length ≠ 0)
    (hfield : getField result "hotspots" = JVal.jarr xs) :
    ∀ h, (h ∈ detectSceneHotspots items (some result) ↔
      h ∈ xs ∧ jsTruthy h = true ∧ jsTruthy (getField h "name") = true ∧
      ∃ bs, getField h "box" = JVal.jarr bs ∧ bs.length = 4) := by
  intro h
  unfold detectSceneHotspots
  rw [if_neg hitems]
  simp only [hfield]
  rw [List.mem_filter, keepRawHotspot_iff]

/-- Witness for C4's amended theorem at the mixed response: the malformed
`{name:"lamp"}` entry (missing box) is not kept, while the well-formed
`key` entry is. -/
theorem detectSceneHotspots_filter_characterization_witness :
    (JVal.jobj [("name", JVal.jstr "key"),
                ("box", JVal.jarr [JVal.jnum 10, JVal.jnum 10,
                                   JVal.jnum 20, JVal.jnum 20])]) ∈
      detectSceneHotspots ["key", "lamp"]
        (some (JVal.jobj [("hotspots", JVal.jarr
          [JVal.jobj [("name", JVal.jstr "key"),
                      ("box", JVal.jarr [JVal.jnum 10, JVal.jnum 10,
                                         JVal.jnum 20, JVal.jnum 20])],
           JVal.jobj [("name", JVal.jstr "lamp")]])])) := by
  apply (detectSceneHotspots_filter_characterization ["key", "lamp"]
    (JVal.jobj [("hotspots", JVal.jarr
      [JVal.jobj [("name", JVal.jstr "key"),
                  ("box", JVal.jarr [JVal.jnum 10, JVal.jnum 10,
                                     JVal.jnum 20, JVal.jnum 20])],
       JVal.jobj [("name", JVal.jstr "lamp")]])])
    [JVal.jobj [("name", JVal.jstr "key"),
                ("box", JVal.jarr [JVal.jnum 10, JVal.jnum 10,
                                   JVal.jnum 20, JVal.jnum 20])],
     JVal.jobj [("name", JVal.jstr "lamp")]]
    (by decide) rfl _).mpr
  refine ⟨List.mem_cons_self _ _, rfl, rfl,
    [JVal.jnum 10, JVal.jnum 10, JVal.jnum 20, JVal.jnum 20], rfl, rfl⟩

-- ---- Named forms of `executeCommand`'s intermediate values ----

/-- The response a turn works with (service result or fallback). -/
def respFor (g : GameState) (o : TurnOracle) : AdventureResponse :=
  processGameAction o.narrativeOutcome g.currentSceneId

/-- The value `needsUpdate` of `executeCommand`. -/
def needsUpdateFor (g : GameState) (o : TurnOracle) : Bool :=
  !(some (respFor g o).scene_id == g.currentSceneId) ||
    (respFor g o).trigger_visual_update

/-- The visual-resolution result a turn observes (inert when no update
is needed). -/
def vrFor (g : GameState) (o : TurnOracle) : VisualResult :=
  if needsUpdateFor g o then
    handleVisualUpdate g.sceneCache (respFor g o).scene_id
      (respFor g o).trigger_visual_update (respFor g o).interactables o.visual
  else
    { image := none, hotspots := [], calledGenImage := false
      calledDetect := false, loadingMessage := none }

/-- The value `newImage` of `executeCommand`. -/
def newImageFor (g : GameState) (o : TurnOracle) : Option String :=
  if needsUpdateFor g o then jsOrOpt (vrFor g o).image g.imageUrl else g.imageUrl

/-- The value `newHotspots` of `executeCommand`. -/
def newHotspotsFor (g : GameState) (o : TurnOracle) : List Hotspot :=
  if needsUpdateFor g o then
    (if (vrFor g o).hotspots.length > 0 then (vrFor g o).hotspots else [])
  else g.hotspots

/-- The artifact the commit would store. -/
def newArtifactFor (g : GameState) (o : TurnOracle) : SceneData :=
  { id := (respFor g o).scene_id
    visualDescription := (respFor g o).visual_description
    imageUrl := (newImageFor g o).getD ""
    hotspots := newHotspotsFor g o
    interactables := (respFor g o).interactables }

/-- The value `nextCache` of the commit of `executeCommand`. -/
def nextCacheFor (g : GameState) (o : TurnOracle) : Cache :=
  if jsTruthyStr (newImageFor g o) then
    cacheSet g.sceneCache (respFor g o).scene_id (newArtifactFor g o)
  else g.sceneCache

theorem executeCommand_unfold (g : GameState) (cmd : String) (o : TurnOracle)
    (hguard : (g.isLoading || g.gameOver) = false) :
    executeCommand g cmd o =
      { state :=
          { g with
            isLoading := false
            loadingMessage := ((vrFor g o).loadingMessage).getD "Thinking..."
            history := (g.history ++ [⟨LogType.command, "> " ++ cmd⟩]) ++
              [⟨LogType.narrator, (respFor g o).narrative⟩]
            inventory := updateInventory g.inventory
              (respFor g o).inventory_add (respFor g o).inventory_remove
            currentSceneId := some (respFor g o).scene_id
            imageUrl := newImageFor g o
            hotspots := newHotspotsFor g o
            gameOver := ((respFor g o).is_game_over).getD false
            sceneCache := nextCacheFor g o }
        narrativeCalled := true
        policyInvoked := needsUpdateFor g o
        calledGenImage := needsUpdateFor g o && (vrFor g o).calledGenImage
        calledDetect := needsUpdateFor g o && (vrFor g o).calledDetect } := by
  unfold executeCommand
  rw [if_neg (by rw [hguard]; decide)]
  rfl

/-- C2 counterexample: from the initial, not-yet-playing state
(`isPlaying = false`, `isLoading = false`, `gameOver = false`),
`executeCommand` is not a no-op — the narrative service is called and the
history grows — because the guard tests only `isLoading || gameOver`. -/
theorem executeCommand_ignores_isPlaying :
    notPlayingState.isPlaying = false ∧
    notPlayingState.gameOver = false ∧
    notPlayingState.isLoading = false ∧
    (executeCommand notPlayingState "look around" stubOracle).narrativeCalled = true ∧
    (executeCommand notPlayingState "look around" stubOracle).state.history.length
      = notPlayingState.history.length + 2 := by
  refine ⟨rfl, rfl, rfl, rfl, rfl⟩

/-- C2 (amended): `executeCommand` is a no-op — state unchanged, no
network call — exactly when `isLoading` or `gameOver` holds; the
`isPlaying` flag is not part of the guard, so in any idle non-game-over
state the turn proceeds (network call made, history extended,
`isLoading` released). -/
theorem executeCommand_guard (g : GameState) (cmd : String) (o : TurnOracle) :
    ((g.isLoading || g.gameOver) = true →
      executeCommand g cmd o =
        { state := g, narrativeCalled := false, policyInvoked := false
          calledGenImage := false, calledDetect := false }) ∧
    ((g.isLoading || g.gameOver) = false →
      (executeCommand g cmd o).narrativeCalled = true ∧
      (executeCommand g cmd o).state.history.length = g.history.length + 2 ∧
      (executeCommand g cmd o).state.isLoading = false) := by
  constructor
  · intro h
    unfold executeCommand
    rw [if_pos h]
  · intro h
    rw [executeCommand_unfold g cmd o h]
    refine ⟨rfl, ?_, rfl⟩
    simp only [List.length_append, List.length_cons, List.length_nil]

/-- Witness for C2's amended theorem: a loading state is left untouched,
and the idle `notPlayingState` proceeds. -/
theorem executeCommand_guard_witness :
    executeCommand loadingState "wait" stubOracle =
      { state := loadingState
        narrativeCalled := false, policyInvoked := false
        calledGenImage := false, calledDetect := false } ∧
    (executeCommand midGameState "wait" stubOracle).narrativeCalled = true := by
  constructor
  · exact (executeCommand_guard loadingState "wait" stubOracle).1 rfl
  · exact ((executeCommand_guard midGameState "wait" stubOracle).2 rfl).1

/-- C6: the Visual Resolution Policy is invoked iff
`needsVisualUpdate = (response.sceneId != previousSceneId) OR
response.triggerVisualUpdate`; a scene-id change alone forces invocation,
and a same-scene no-trigger turn leaves `imageUrl` and `hotspots`
unchanged. -/
theorem executeCommand_visual_trigger (g : GameState) (cmd : String)
    (o : TurnOracle) (hguard : (g.isLoading || g.gameOver) = false) :
    ((executeCommand g cmd o).policyInvoked =
      (!(some (respFor g o).scene_id == g.currentSceneId) ||
        (respFor g o).trigger_visual_update)) ∧
    (some (respFor g o).scene_id ≠ g.currentSceneId →
      (executeCommand g cmd o).policyInvoked = true) ∧
    (some (respFor g o).scene_id = g.currentSceneId →
      (respFor g o).trigger_visual_update = false →
      (executeCommand g cmd o).state.imageUrl = g.imageUrl ∧
      (executeCommand g cmd o).state.hotspots = g.hotspots) := by
  rw [executeCommand_unfold g cmd o hguard]
  refine ⟨rfl, ?_, ?_⟩
  · intro hne
    have hb : (some (respFor g o).scene_id == g.currentSceneId) = false :=
      beq_eq_false_iff_ne.mpr hne
    show (!(some (respFor g o).scene_id == g.currentSceneId) ||
        (respFor g o).trigger_visual_update) = true
    rw [hb]
    rfl
  · intro hscene htrig
    have hnu : needsUpdateFor g o = false := by
      unfold needsUpdateFor
      rw [hscene, htrig, beq_self_eq_true]
      rfl
    constructor
    · show newImageFor g o = g.imageUrl
      unfold newImageFor
      rw [hnu, if_neg (by decide)]
    · show newHotspotsFor g o = g.hotspots
      unfold newHotspotsFor
      rw [hnu, if_neg (by decide)]

/-- Witness for C6: scene change `"a" → "b"` with the trigger clear still
invokes the policy. -/
theorem executeCommand_visual_trigger_witness :
    (executeCommand sceneAState "go"
        { narrativeOutcome := some
            { narrative := "n", scene_id := "b", visual_description := "d"
              trigger_visual_update := false, interactables := [] }
          visual := { genImage := none, detect := [] } }).policyInvoked = true := by
  exact (executeCommand_visual_trigger sceneAState "go"
    { narrativeOutcome := some
        { narrative := "n", scene_id := "b", visual_description := "d"
          trigger_visual_update := false, interactables := [] }
      visual := { genImage := none, detect := [] } } rfl).2.1 (by decide)

/-- C8: when the narrative call fails, `executeCommand` substitutes the
deterministic fallback (apology narrative, previous scene id or the
"unknown" sentinel, trigger false, no interactables) and still runs the
normal commit: `isLoading` ends false, the command and the fallback
narrative are appended to the history, and no error escapes (the
transition is total). -/
theorem executeCommand_narrative_fallback (g : GameState) (cmd : String)
    (o : TurnOracle) (hguard : (g.isLoading || g.gameOver) = false)
    (hfail : o.narrativeOutcome = none) :
    respFor g o =
      { narrative := "I didn't quite get that."
        scene_id := jsOrD g.currentSceneId "unknown"
        visual_description := "No change."
        trigger_visual_update := false
        interactables := [] } ∧
    (executeCommand g cmd o).narrativeCalled = true ∧
    (executeCommand g cmd o).state.isLoading = false ∧
    (executeCommand g cmd o).state.history =
      (g.history ++ [⟨LogType.command, "> " ++ cmd⟩]) ++
        [⟨LogType.narrator, "I didn't quite get that."⟩] ∧
    (executeCommand g cmd o).state.gameOver = false := by
  have hresp : respFor g o =
      { narrative := "I didn't quite get that."
        scene_id := jsOrD g.currentSceneId "unknown"
        visual_description := "No change."
        trigger_visual_update := false
        interactables := [] } := by
    unfold respFor processGameAction
    rw [hfail]
  rw [executeCommand_unfold g cmd o hguard]
  refine ⟨hresp, rfl, rfl, ?_, ?_⟩
  · rw [hresp]
  · rw [hresp]
    rfl

/-- Witness for C8 from a mid-game state with a failing narrative call:
the turn commits with `isLoading = false` and the fallback keeps the
previous scene id. -/
theorem executeCommand_narrative_fallback_witness :
    (executeCommand midGameState "dance" stubOracle).state.isLoading = false ∧
    (respFor midGameState stubOracle).scene_id = "room" := by
  have h := executeCommand_narrative_fallback midGameState "dance" stubOracle rfl rfl
  refine ⟨h.2.2.1, ?_⟩
  rw [h.1]
  rfl

-- ---- Named forms of `handleStartGame`'s intermediate values ----

/-- The response `startGame` works with (service result or fallback). -/
def startRespFor (o : TurnOracle) : AdventureResponse :=
  generateAdventureStart o.narrativeOutcome

/-- The visual result `startGame` observes (trigger forced true). -/
def startVrFor (g : GameState) (o : TurnOracle) : VisualResult :=
  handleVisualUpdate g.sceneCache (startRespFor o).scene_id true
    (startRespFor o).interactables o.visual

theorem handleStartGame_unfold (g : GameState) (theme : String) (o : TurnOracle) :
    handleStartGame g theme o =
      { g with
        isPlaying := true
        theme := theme
        isLoading := false
        loadingMessage := ((startVrFor g o).loadingMessage).getD "Initializing World..."
        currentSceneId := some (startRespFor o).scene_id
        imageUrl := (startVrFor g o).image
        hotspots := (startVrFor g o).hotspots
        history := [⟨LogType.narrator, (startRespFor o).narrative⟩]
        inventory :=
          if jsTruthyStr (startRespFor o).inventory_add then
            [(startRespFor o).inventory_add.getD ""]
          else []
        sceneCache :=
          [((startRespFor o).scene_id,
            { id := (startRespFor o).scene_id
              visualDescription := (startRespFor o).visual_description
              imageUrl := ((startVrFor g o).image).getD ""
              hotspots := (startVrFor g o).hotspots
              interactables := (startRespFor o).interactables })] } := rfl

theorem cacheGet_singleton (k : String) (v : SceneData) :
    cacheGet [(k, v)] k = some v := by
  unfold cacheGet
  rw [List.find?_cons_of_pos _ (by exact beq_self_eq_true k)]
  rfl

-- ---- Fixtures for the visual-failure and cache-write claims ----

/-- A hotspot displayed before the failing turn. -/
def lanternHotspot : Hotspot := { name := "lantern", box := [10, 10, 20, 20] }

/-- Mid-game state displaying an image and one hotspot. -/
def preFailState : GameState :=
  { isPlaying := true, currentSceneId := some "base", inventory := [], history := []
    imageUrl := some "img0", hotspots := [lanternHotspot], isLoading := false
    loadingMessage := "", gameOver := false, theme := "", sceneCache := [] }

/-- A turn that demands a redraw but whose image generation fails. -/
def failImageOracle : TurnOracle :=
  { narrativeOutcome := some
      { narrative := "n", scene_id := "base", visual_description := "d"
        trigger_visual_update := true, interactables := ["lantern"] }
    visual := { genImage := none, detect := [] } }

/-- The artifact cached for scene "room" before the no-visual turn. -/
def oldRoomArtifact : SceneData :=
  { id := "room", visualDescription := "old", imageUrl := "img0"
    hotspots := [], interactables := [] }

/-- Mid-game state in scene "room" with that scene cached and displayed. -/
def cachedRoomState : GameState :=
  { isPlaying := true, currentSceneId := some "room", inventory := [], history := []
    imageUrl := some "img0", hotspots := [], isLoading := false, loadingMessage := ""
    gameOver := false, theme := "", sceneCache := [("room", oldRoomArtifact)] }

/-- A same-scene, no-trigger turn carrying a new visual description. -/
def sameSceneOracle : TurnOracle :=
  { narrativeOutcome := some
      { narrative := "n", scene_id := "room", visual_description := "new"
        trigger_visual_update := false, interactables := [] }
    visual := { genImage := none, detect := [] } }

/-- C3 counterexample: on a turn that requires visual resolution whose
image generation fails, the previous image is kept but the displayed
hotspots are cleared from `[lanternHotspot]` to `[]` — the player's
visual state does change, refuting "no visual change". -/
theorem imageFailure_clears_hotspots :
    (executeCommand preFailState "look" failImageOracle).policyInvoked = true ∧
    (executeCommand preFailState "look" failImageOracle).calledGenImage = true ∧
    (executeCommand preFailState "look" failImageOracle).state.imageUrl
      = preFailState.imageUrl ∧
    preFailState.hotspots ≠ [] ∧
    (executeCommand preFailState "look" failImageOracle).state.hotspots = [] := by
  refine ⟨rfl, rfl, rfl, by decide, rfl⟩

/-- A scene-change turn (trigger clear, target scene uncached) whose
image generation fails. -/
def sceneChangeFailOracle : TurnOracle :=
  { narrativeOutcome := some
      { narrative := "n", scene_id := "b", visual_description := "d"
        trigger_visual_update := false, interactables := ["door"] }
    visual := { genImage := none, detect := [] } }

/-- C3 (amended): whenever a turn requires visual resolution
(`needsUpdate` holds) and the policy reaches image generation — because
the trigger flag is set or the response's scene is not cached — and that
generation fails, the policy returns `(null, [])`, the orchestrator keeps
the previously displayed image, and the displayed hotspots are replaced
by the empty list (not kept). -/
theorem executeCommand_image_failure (g : GameState) (cmd : String)
    (o : TurnOracle) (hguard : (g.isLoading || g.gameOver) = false)
    (hneeds : needsUpdateFor g o = true)
    (hgen : (respFor g o).trigger_visual_update = true ∨
      cacheGet g.sceneCache (respFor g o).scene_id = none)
    (hfail : jsTruthyStr o.visual.genImage = false) :
    vrFor g o =
      { image := none, hotspots := [], calledGenImage := true
        calledDetect := false, loadingMessage := some "Rendering Scene..." } ∧
    (executeCommand g cmd o).state.imageUrl = g.imageUrl ∧
    (executeCommand g cmd o).state.hotspots = [] := by
  have hgenvis : generateVisuals (respFor g o).interactables o.visual =
      { image := none, hotspots := [], calledGenImage := true
        calledDetect := false, loadingMessage := some "Rendering Scene..." } := by
    unfold generateVisuals
    rw [hfail, if_neg (by decide)]
  have hvr : vrFor g o =
      { image := none, hotspots := [], calledGenImage := true
        calledDetect := false, loadingMessage := some "Rendering Scene..." } := by
    unfold vrFor
    rw [hneeds, if_pos rfl]
    unfold handleVisualUpdate
    cases htrig : (respFor g o).trigger_visual_update with
    | true =>
      rw [if_pos rfl]
      exact hgenvis
    | false =>
      rw [if_neg (by decide)]
      have hmiss : cacheGet g.sceneCache (respFor g o).scene_id = none := by
        rcases hgen with h | h
        · rw [htrig] at h
          cases h
        · exact h
      rw [hmiss]
      exact hgenvis
  refine ⟨hvr, ?_, ?_⟩
  · rw [executeCommand_unfold g cmd o hguard]
    show newImageFor g o = g.imageUrl
    unfold newImageFor
    rw [hneeds, if_pos rfl, hvr]
    rfl
  · rw [executeCommand_unfold g cmd o hguard]
    show newHotspotsFor g o = []
    unfold newHotspotsFor
    rw [hneeds, if_pos rfl, hvr]
    rfl

/-- Witness for C3's amended theorem in both generation cases: a
forced-redraw turn (`failImageOracle`, trigger set) and a scene-change
turn with the trigger clear and the target scene uncached
(`sceneChangeFailOracle`); in each, the image is kept on failure. -/
theorem executeCommand_image_failure_witness :
    (vrFor preFailState failImageOracle).image = none ∧
    (executeCommand preFailState "look at lantern" failImageOracle).state.imageUrl
      = preFailState.imageUrl ∧
    (vrFor preFailState sceneChangeFailOracle).image = none ∧
    (executeCommand preFailState "go north" sceneChangeFailOracle).state.imageUrl
      = preFailState.imageUrl ∧
    (executeCommand preFailState "go north" sceneChangeFailOracle).state.hotspots
      = [] := by
  have h1 := executeCommand_image_failure preFailState "look at lantern"
    failImageOracle rfl (by decide) (Or.inl rfl) rfl
  have h2 := executeCommand_image_failure preFailState "go north"
    sceneChangeFailOracle rfl (by decide) (Or.inr rfl) rfl
  exact ⟨by rw [h1.1], h1.2.1, by rw [h2.1], h2.2.1, h2.2.2⟩

/-- C1 counterexample: a same-scene, no-trigger turn generates no visuals
(the policy is never invoked, no Media Service call is made), yet the
commit still overwrites the scene-cache entry — its stored
`visualDescription` changes from "old" to "new" — refuting "a turn in
which no new visuals were generated leaves the scene cache unchanged". -/
theorem cacheWrite_without_new_visuals :
    (executeCommand cachedRoomState "look" sameSceneOracle).policyInvoked = false ∧
    (executeCommand cachedRoomState "look" sameSceneOracle).calledGenImage = false ∧
    (executeCommand cachedRoomState "look" sameSceneOracle).calledDetect = false ∧
    cacheGet (executeCommand cachedRoomState "look" sameSceneOracle).state.sceneCache
        "room" ≠ cacheGet cachedRoomState.sceneCache "room" := by
  refine ⟨rfl, rfl, rfl, by decide⟩

/-- C1 (amended): in `executeCommand`'s commit, a fresh `SceneArtifact`
keyed by `response.sceneId` is written iff the turn's resulting displayed
image is truthy (non-null, non-empty) — including turns that produced no
new visuals, where the current image, hotspots and the response's new
description and interactables are stored; the cache is unchanged iff the
resulting image is falsy. -/
theorem executeCommand_cache_write (g : GameState) (cmd : String)
    (o : TurnOracle) (hguard : (g.isLoading || g.gameOver) = false) :
    (jsTruthyStr (executeCommand g cmd o).state.imageUrl = true →
      (executeCommand g cmd o).state.sceneCache =
        cacheSet g.sceneCache (respFor g o).scene_id
          { id := (respFor g o).scene_id
            visualDescription := (respFor g o).visual_description
            imageUrl := ((executeCommand g cmd o).state.imageUrl).getD ""
            hotspots := (executeCommand g cmd o).state.hotspots
            interactables := (respFor g o).interactables }) ∧
    (jsTruthyStr (executeCommand g cmd o).state.imageUrl = false →
      (executeCommand g cmd o).state.sceneCache = g.sceneCache) := by
  rw [executeCommand_unfold g cmd o hguard]
  constructor
  · intro hb
    replace hb : jsTruthyStr (newImageFor g o) = true := hb
    show nextCacheFor g o =
      cacheSet g.sceneCache (respFor g o).scene_id (newArtifactFor g o)
    unfold nextCacheFor
    rw [if_pos hb]
  · intro hb
    replace hb : jsTruthyStr (newImageFor g o) = false := hb
    show nextCacheFor g o = g.sceneCache
    unfold nextCacheFor
    rw [if_neg (by rw [hb]; decide)]

/-- Witness for C1's amended theorem: the no-visual turn on
`cachedRoomState` keeps a truthy image, so the commit rewrites the cache
entry for "room" with the fresh description. -/
theorem executeCommand_cache_write_witness :
    (executeCommand cachedRoomState "inspect" sameSceneOracle).state.sceneCache =
      cacheSet cachedRoomState.sceneCache "room"
        { id := "room", visualDescription := "new", imageUrl := "img0"
          hotspots := [], interactables := [] } := by
  exact (executeCommand_cache_write cachedRoomState "inspect"
    sameSceneOracle rfl).1 rfl

/-- C10: after `startGame` commits, the scene cache is exactly the
single-entry map keyed by the response's scene id (prior entries are
discarded), and this entry is written even when image generation failed,
storing `imageUrl = ""` while the displayed `imageUrl` is null. -/
theorem handleStartGame_cache_single (g : GameState) (theme : String)
    (o : TurnOracle) :
    List.map Prod.fst (handleStartGame g theme o).sceneCache
      = [(startRespFor o).scene_id] ∧
    (jsTruthyStr o.visual.genImage = false →
      (handleStartGame g theme o).imageUrl = none ∧
      (cacheGet (handleStartGame g theme o).sceneCache
          (startRespFor o).scene_id).map SceneData.imageUrl = some "") := by
  rw [handleStartGame_unfold g theme o]
  refine ⟨rfl, ?_⟩
  intro hfail
  have hvr : (startVrFor g o).image = none := by
    unfold startVrFor handleVisualUpdate
    rw [if_pos rfl]
    unfold generateVisuals
    rw [hfail, if_neg (by decide)]
  refine ⟨hvr, ?_⟩
  rw [cacheGet_singleton]
  show some (((startVrFor g o).image).getD "") = some ""
  rw [hvr]
  rfl

/-- Witness for C10 on a state with a pre-existing cache entry and a
failing image call: the prior "room" entry is discarded, the new entry is
keyed by the fallback scene id, and the displayed image is null. -/
theorem handleStartGame_cache_single_witness :
    List.map Prod.fst (handleStartGame cachedRoomState "space" stubOracle).sceneCache
      = ["error_room"] ∧
    (handleStartGame cachedRoomState "space" stubOracle).imageUrl = none := by
  have h := handleStartGame_cache_single cachedRoomState "space" stubOracle
  exact ⟨h.1, (h.2 rfl).1⟩

end AdventureEngine
